import Mathlib

set_option maxHeartbeats 1000000

/-!
Shallow embedding of cmd/temporalite/main.go (the temporalite CLI bootstrap):
flag constants, the search-attribute parser, the start command's Before
validator and Action option composer, and the process exit-code mapping.
External collaborators (the temporalite server, the zap logger build, the
urfave/cli exit-coder plumbing) are modelled as explicit outcome parameters.
-/

namespace Temporalite

/-- Flag-name constant from main.go. -/
def searchAttrType : String := "search-attributes-type"

/-- Flag-name constant from main.go. -/
def searchAttrKey : String := "search-attributes-key"

/-- Flag-name constant from main.go. -/
def ephemeralFlag : String := "ephemeral"

/-- Flag-name constant from main.go. -/
def dbPathFlag : String := "filename"

/-- Flag-name constant from main.go. -/
def portFlag : String := "port"

/-- Flag-name constant from main.go. -/
def logFormatFlag : String := "log-format"

/-- Flag-name constant from main.go. -/
def namespaceFlag : String := "namespace"

/-- The name-to-value map of the IndexedValueType enum from the dependency
go.temporal.io/api/enums/v1 (the generated IndexedValueType_value map used by
parseSearchAttributes). A fixed closed set; lookup is exact, case-sensitive
string match. -/
def IndexedValueType_value : String → Option Int
  | "Unspecified" => some 0
  | "Text" => some 1
  | "Keyword" => some 2
  | "Int" => some 3
  | "Double" => some 4
  | "Bool" => some 5
  | "Datetime" => some 6
  | "KeywordList" => some 7
  | _ => none

/-- Result of parseSearchAttributes: a successful map (Go map, modelled
extensionally as a function), an error carrying the Go error message, or a
runtime fault (the index-out-of-range panic Go would raise on types[i]). -/
inductive ParseResult where
  | ok (m : String → Option Int)
  | err (msg : String)
  | fault

/-- Discriminator for the ok constructor of ParseResult. -/
def ParseResult.isOk : ParseResult → Bool
  | .ok _ => true
  | _ => false

/-- Discriminator for the fault constructor of ParseResult. -/
def ParseResult.isFault : ParseResult → Bool
  | .fault => true
  | _ => false

/-- The loop body of parseSearchAttributes: Go iterates the keys with index i,
reads types[i] (a fault if out of range), resolves the type token in the enum
map (an error naming the token if absent), and assigns m[key] = t
(last write wins, as in a Go map assignment). -/
def parseLoop (types : List String) : List String → Nat → (String → Option Int) → ParseResult
  | [], _, _m => ParseResult.ok _m
  | key :: rest, i, m =>
    match types[i]? with
    | none => ParseResult.fault
    | some tok =>
      match IndexedValueType_value tok with
      | none => ParseResult.err ("the type: " ++ tok ++ " is not a valid type for a search attribute")
      | some t => parseLoop types rest (i + 1) (fun k => if k = key then some t else m k)

/-- Embeds parseSearchAttributes from main.go: builds the name-to-type map
from the two parallel lists, starting from the empty map. -/
def parseSearchAttributes (keys types : List String) : ParseResult :=
  parseLoop types keys 0 (fun _ => none)

/-- Structural companion of parseLoop over already-zipped (key, token) pairs;
used to reason about parseLoop once the index arithmetic is discharged. -/
def parsePairs : List (String × String) → (String → Option Int) → ParseResult
  | [], m => ParseResult.ok m
  | (key, tok) :: rest, m =>
    match IndexedValueType_value tok with
    | none => ParseResult.err ("the type: " ++ tok ++ " is not a valid type for a search attribute")
    | some t => parsePairs rest (fun k => if k = key then some t else m k)

/-- The token of the last pair whose key equals k, if any: the value that a
left-to-right sequence of Go map assignments leaves behind for k. -/
def lookupLast (pairs : List (String × String)) (k : String) : Option String :=
  (pairs.reverse.find? (fun p => p.1 == k)).map Prod.snd

/-- The raw flag state of one invocation of the start command, as seen through
the urfave/cli context: for each flag both whether it was explicitly set
(IsSet) and the value the context resolves (explicit value or default).
Positional arguments are the args list. -/
structure RawInput where
  args : List String
  ephemeralSet : Bool
  ephemeral : Bool
  filenameSet : Bool
  filename : String
  port : Int
  logFormat : String
  namespaces : List String
  saKeySet : Bool
  saKeys : List String
  saTypeSet : Bool
  saTypes : List String

/-- An error value returned by the start command: cli.Exit carries a message
and an exit code; plain is an ordinary Go error (fmt.Errorf, zap build error,
NewServer error), which main passes to log.Fatal. -/
inductive CliErr where
  | exit (msg : String) (code : Nat)
  | plain (msg : String)
deriving DecidableEq

/-- The exit code the process ends with when the start command returns this
error: cli.Exit carries its own code; a plain error reaches log.Fatal in main,
which exits with status 1. -/
def CliErr.code : CliErr → Nat
  | .exit _ n => n
  | .plain _ => 1

/-- The human-readable message carried by the error. -/
def CliErr.message : CliErr → String
  | .exit m _ => m
  | .plain m => m

/-- Embeds searchAttributesValid from main.go: the pairing check (both flags
set or neither), then the equal-length check. Returns none when valid. -/
def searchAttributesValid (c : RawInput) : Option CliErr :=
  if (c.saTypeSet || c.saKeySet) && !(c.saTypeSet && c.saKeySet) then
    some (CliErr.exit ("ERROR: both \"" ++ searchAttrType ++ "\" and \"" ++ searchAttrKey ++ "\" must be set at the same time, or omitted completely") 1)
  else if c.saTypeSet && c.saKeySet && (c.saTypes.length != c.saKeys.length) then
    some (CliErr.exit ("ERROR: number of search attributes (type/key) in \"" ++ searchAttrType ++ "\" and \"" ++ searchAttrKey ++ "\" must be the same") 1)
  else
    none

/-- Embeds the Before hook of the start command: rejects positional arguments,
then the ephemeral/filename conflict, then runs searchAttributesValid, then
checks the log-format value against the fixed set. Returns none when
validation passes. -/
def startBefore (c : RawInput) : Option CliErr :=
  if c.args.length > 0 then
    some (CliErr.exit "ERROR: start command doesn't support arguments." 1)
  else if c.ephemeralSet && c.filenameSet then
    some (CliErr.exit ("ERROR: only one of \"" ++ ephemeralFlag ++ "\" or \"" ++ dbPathFlag ++ "\" flags may be passed at a time") 1)
  else
    match searchAttributesValid c with
    | some e => some e
    | none =>
      if c.logFormat = "json" ∨ c.logFormat = "pretty" then none
      else some (CliErr.exit ("bad value \"" ++ c.logFormat ++ "\" passed for flag \"" ++ logFormatFlag ++ "\"") 1)

/-- One server-construction directive (a temporalite.ServerOption value). The
search-attribute directive carries the parsed map; the upstream directive
stands for WithUpstreamOptions(temporal.InterruptOn(temporal.InterruptCh())). -/
inductive ServerOption where
  | withFrontendPort (p : Int)
  | withDatabaseFilePath (path : String)
  | withNamespaces (ns : List String)
  | withUpstreamOptions
  | withPersistenceDisabled
  | withSearchAttributes (sa : String → Option Int)
  | withLogger

/-- Discriminator for the search-attribute directive. -/
def ServerOption.isSearchAttrs : ServerOption → Bool
  | .withSearchAttributes _ => true
  | _ => false

/-- Discriminator for the logger-override directive. -/
def ServerOption.isLogger : ServerOption → Bool
  | .withLogger => true
  | _ => false

/-- Outcomes of the external collaborators the Action invokes: the zap logger
build, temporalite.NewServer, and s.Start. each is none on success or some
error text on failure. -/
structure External where
  loggerBuildErr : Option String
  newServerErr : Option String
  startErr : Option String

/-- Result of the start command's Action: finished opts ret means composition
completed with option list opts, NewServer was called on opts, and the Action
returned the error value ret; earlyErr means the Action returned before or at
server construction without a completed run (parse failure, logger build
failure, NewServer failure); panicked is the index-out-of-range fault. -/
inductive ActionResult where
  | finished (opts : List ServerOption) (ret : CliErr)
  | earlyErr (e : CliErr)
  | panicked

/-- The initial option list the Action always builds: frontend port, database
file path, namespace list, upstream interrupt hook, in that order. -/
def baseOpts (c : RawInput) : List ServerOption :=
  [ServerOption.withFrontendPort c.port,
   ServerOption.withDatabaseFilePath c.filename,
   ServerOption.withNamespaces c.namespaces,
   ServerOption.withUpstreamOptions]

/-- Tail of the Action after the option list is final: NewServer, then Start.
A NewServer failure is returned as a plain error; a Start failure is wrapped
in cli.Exit with code 1; clean shutdown returns cli.Exit with code 0. -/
def startActionServe (ext : External) (opts : List ServerOption) : ActionResult :=
  match ext.newServerErr with
  | some m => ActionResult.earlyErr (CliErr.plain m)
  | none =>
    match ext.startErr with
    | some m => ActionResult.finished opts (CliErr.exit ("Unable to start server. Error: " ++ m) 1)
    | none => ActionResult.finished opts (CliErr.exit "All services are stopped." 0)

/-- Middle of the Action after the search-attribute step: when the log format
is pretty, build the development zap logger (a build failure is returned as a
plain error) and append the logger-override directive. -/
def startActionAfterSA (ext : External) (c : RawInput) (opts : List ServerOption) : ActionResult :=
  if c.logFormat = "pretty" then
    match ext.loggerBuildErr with
    | some m => ActionResult.earlyErr (CliErr.plain m)
    | none => startActionServe ext (opts ++ [ServerOption.withLogger])
  else
    startActionServe ext opts

/-- Embeds the Action of the start command, parameterised by the
search-attribute parse function it calls (instantiated with
parseSearchAttributes in startAction): build the base options, append the
persistence-disabled directive when the ephemeral value is true, parse and
append the search-attribute directive when both list flags are set, then the
logger step and the serve step. -/
def startActionWith (parse : List String → List String → ParseResult) (ext : External) (c : RawInput) : ActionResult :=
  let opts0 := baseOpts c
  let opts1 := if c.ephemeral then opts0 ++ [ServerOption.withPersistenceDisabled] else opts0
  if c.saTypeSet && c.saKeySet then
    match parse c.saKeys c.saTypes with
    | ParseResult.fault => ActionResult.panicked
    | ParseResult.err msg => ActionResult.earlyErr (CliErr.plain msg)
    | ParseResult.ok sa => startActionAfterSA ext c (opts1 ++ [ServerOption.withSearchAttributes sa])
  else
    startActionAfterSA ext c opts1

/-- The Action with its actual parse function. -/
def startAction (ext : External) (c : RawInput) : ActionResult :=
  startActionWith parseSearchAttributes ext c

/-- Outcome of one invocation of the start command: either the Before hook
failed, or the Action ran. -/
inductive RunResult where
  | beforeErr (e : CliErr)
  | action (r : ActionResult)

/-- The start command as cli runs it, parameterised by the parse function:
the Before hook runs first and its failure prevents the Action entirely. -/
def runStartWith (parse : List String → List String → ParseResult) (ext : External) (c : RawInput) : RunResult :=
  match startBefore c with
  | some e => RunResult.beforeErr e
  | none => RunResult.action (startActionWith parse ext c)

/-- The start command with its actual parse function. -/
def runStart (ext : External) (c : RawInput) : RunResult :=
  runStartWith parseSearchAttributes ext c

/-- The process exit status and printed message for an outcome: cli's
HandleExitCoder prints the message of a cli.Exit error and exits with its
code; a plain error propagates to log.Fatal in main, which prints it and
exits 1; a panic has no defined exit pair here. -/
def exitOutcome : RunResult → Option (Nat × String)
  | RunResult.beforeErr e => some (e.code, e.message)
  | RunResult.action (ActionResult.earlyErr e) => some (e.code, e.message)
  | RunResult.action (ActionResult.finished _ ret) => some (ret.code, ret.message)
  | RunResult.action ActionResult.panicked => none

/-- Modelled from the claim: the validation checks as a flat list of
independent conditions tested in the fixed order positional arguments,
ephemeral/filename conflict, search-attribute pairing, search-attribute list
length, log format; the first violated condition supplies the failure. -/
def firstViolation (c : RawInput) : Option CliErr :=
  if c.args.length > 0 then
    some (CliErr.exit "ERROR: start command doesn't support arguments." 1)
  else if c.ephemeralSet && c.filenameSet then
    some (CliErr.exit ("ERROR: only one of \"" ++ ephemeralFlag ++ "\" or \"" ++ dbPathFlag ++ "\" flags may be passed at a time") 1)
  else if (c.saTypeSet || c.saKeySet) && !(c.saTypeSet && c.saKeySet) then
    some (CliErr.exit ("ERROR: both \"" ++ searchAttrType ++ "\" and \"" ++ searchAttrKey ++ "\" must be set at the same time, or omitted completely") 1)
  else if c.saTypeSet && c.saKeySet && (c.saTypes.length != c.saKeys.length) then
    some (CliErr.exit ("ERROR: number of search attributes (type/key) in \"" ++ searchAttrType ++ "\" and \"" ++ searchAttrKey ++ "\" must be the same") 1)
  else if c.logFormat = "json" ∨ c.logFormat = "pretty" then
    none
  else
    some (CliErr.exit ("bad value \"" ++ c.logFormat ++ "\" passed for flag \"" ++ logFormatFlag ++ "\"") 1)

/-! Helper lemmas about the search-attribute parser. -/

theorem parseLoop_eq_parsePairs (types : List String) :
    ∀ (keys : List String) (i : Nat) (m : String → Option Int),
      i + keys.length ≤ types.length →
      parseLoop types keys i m = parsePairs (keys.zip (types.drop i)) m := by
  intro keys
  induction keys with
  | nil =>
    intro i m _
    simp [parseLoop, parsePairs]
  | cons key rest ih =>
    intro i m h
    have hi : i < types.length := by
      simp only [List.length_cons] at h
      omega
    have hdrop : types.drop i = types[i] :: types.drop (i + 1) :=
      List.drop_eq_getElem_cons hi
    have hget : types[i]? = some types[i] := List.getElem?_eq_getElem hi
    rw [hdrop]
    simp only [List.zip_cons_cons]
    simp only [parseLoop, parsePairs, hget]
    cases hIv : IndexedValueType_value types[i] with
    | none => rfl
    | some t =>
      apply ih
      simp only [List.length_cons] at h
      omega

theorem parsePairs_ne_fault :
    ∀ (pairs : List (String × String)) (m : String → Option Int),
      parsePairs pairs m ≠ ParseResult.fault := by
  intro pairs
  induction pairs with
  | nil =>
    intro m h
    simp [parsePairs] at h
  | cons p rest ih =>
    intro m h
    obtain ⟨key, tok⟩ := p
    simp only [parsePairs] at h
    cases hIv : IndexedValueType_value tok with
    | none => rw [hIv] at h; exact ParseResult.noConfusion h
    | some t => rw [hIv] at h; exact ih _ h

theorem parsePairs_ok :
    ∀ (pairs : List (String × String)) (m : String → Option Int),
      (∀ p ∈ pairs, (IndexedValueType_value p.2).isSome = true) →
      ∃ m', parsePairs pairs m = ParseResult.ok m' ∧
        ∀ k, m' k = (lookupLast pairs k).elim (m k) (fun tok => IndexedValueType_value tok) := by
  intro pairs
  induction pairs with
  | nil =>
    intro m _
    refine ⟨m, rfl, ?_⟩
    intro k
    simp [lookupLast]
  | cons p rest ih =>
    intro m hrec
    obtain ⟨key, tok⟩ := p
    have htok : (IndexedValueType_value tok).isSome = true :=
      hrec (key, tok) (List.mem_cons_self _ _)
    obtain ⟨t, hIv⟩ := Option.isSome_iff_exists.mp htok
    obtain ⟨m', hm', hchar⟩ := ih (fun k => if k = key then some t else m k)
      (fun p hp => hrec p (List.mem_cons_of_mem _ hp))
    refine ⟨m', ?_, ?_⟩
    · simp only [parsePairs, hIv]
      exact hm'
    · intro k
      rw [hchar k]
      simp only [lookupLast, List.reverse_cons, List.find?_append]
      cases hfind : rest.reverse.find? (fun p => p.1 == k) with
      | some q => simp [Option.or, hfind]
      | none =>
        simp only [hfind, Option.or, List.find?]
        by_cases hk : k = key
        · subst hk
          simp [hIv]
        · have hbeq : (key == k) = false := by
            refine beq_eq_false_iff_ne.mpr ?_
            intro he
            exact hk he.symm
          simp [hbeq, hk]

theorem parsePairs_err :
    ∀ (pairs : List (String × String)) (m : String → Option Int) (b : String),
      (pairs.map Prod.snd).find? (fun t => (IndexedValueType_value t).isNone) = some b →
      parsePairs pairs m = ParseResult.err ("the type: " ++ b ++ " is not a valid type for a search attribute") := by
  intro pairs
  induction pairs with
  | nil =>
    intro m b h
    simp at h
  | cons p rest ih =>
    intro m b h
    obtain ⟨key, tok⟩ := p
    simp only [List.map_cons] at h
    by_cases hbad : (IndexedValueType_value tok).isNone = true
    · have hfind : (tok :: List.map Prod.snd rest).find? (fun t => (IndexedValueType_value t).isNone) = some tok := by
        simp [hbad]
      rw [hfind] at h
      have hb : tok = b := by
        injection h
      subst hb
      have hnone : IndexedValueType_value tok = none := Option.isNone_iff_eq_none.mp hbad
      simp [parsePairs, hnone]
    · have hbad2 : (IndexedValueType_value tok).isNone = false := by
        rwa [Bool.not_eq_true] at hbad
      have hfind : (tok :: List.map Prod.snd rest).find? (fun t => (IndexedValueType_value t).isNone) = (List.map Prod.snd rest).find? (fun t => (IndexedValueType_value t).isNone) := by
        simp [hbad2]
      rw [hfind] at h
      obtain ⟨t, hIv⟩ : ∃ t, IndexedValueType_value tok = some t := by
        cases hc : IndexedValueType_value tok with
        | none => rw [hc] at hbad; simp at hbad
        | some t => exact ⟨t, rfl⟩
      simp only [parsePairs, hIv]
      exact ih _ _ h

/-! Helper lemmas about the validator and the option composition. -/

theorem runStartWith_of_before_some (c : RawInput) (e : CliErr) (h : startBefore c = some e)
    (parse : List String → List String → ParseResult) (ext : External) :
    runStartWith parse ext c = RunResult.beforeErr e := by
  rw [runStartWith, h]

theorem searchAttributesValid_some_exit1 (c : RawInput) (e : CliErr)
    (h : searchAttributesValid c = some e) : ∃ msg, e = CliErr.exit msg 1 := by
  unfold searchAttributesValid at h
  split at h
  · exact ⟨_, (Option.some_inj.mp h).symm⟩
  · split at h
    · exact ⟨_, (Option.some_inj.mp h).symm⟩
    · exact absurd h (by simp)

theorem startBefore_some_exit1 (c : RawInput) (e : CliErr) (h : startBefore c = some e) :
    ∃ msg, e = CliErr.exit msg 1 := by
  unfold startBefore at h
  split at h
  · exact ⟨_, (Option.some_inj.mp h).symm⟩
  · split at h
    · exact ⟨_, (Option.some_inj.mp h).symm⟩
    · cases hsa : searchAttributesValid c with
      | some e2 =>
        simp only [hsa, Option.some.injEq] at h
        exact searchAttributesValid_some_exit1 c e (h ▸ hsa)
      | none =>
        simp only [hsa] at h
        split at h
        · exact absurd h (by simp)
        · exact ⟨_, (Option.some_inj.mp h).symm⟩

theorem startBefore_none_logFormat (c : RawInput) (h : startBefore c = none) :
    c.logFormat = "json" ∨ c.logFormat = "pretty" := by
  unfold startBefore at h
  split at h
  · exact absurd h (by simp)
  · split at h
    · exact absurd h (by simp)
    · cases hsa : searchAttributesValid c with
      | some e =>
        simp only [hsa] at h
        exact absurd h (by simp)
      | none =>
        simp only [hsa] at h
        split at h
        · assumption
        · exact absurd h (by simp)

theorem startBefore_none_sa (c : RawInput) (h : startBefore c = none) :
    searchAttributesValid c = none := by
  unfold startBefore at h
  split at h
  · exact absurd h (by simp)
  · split at h
    · exact absurd h (by simp)
    · cases hsa : searchAttributesValid c with
      | none => rfl
      | some e => rw [hsa] at h; exact absurd h (by simp)

theorem searchAttributesValid_none_lengths (c : RawInput)
    (h : searchAttributesValid c = none) (hb : (c.saTypeSet && c.saKeySet) = true) :
    c.saTypes.length = c.saKeys.length := by
  unfold searchAttributesValid at h
  split at h
  · exact absurd h (by simp)
  · split at h
    · exact absurd h (by simp)
    · rename_i h1 h2
      by_contra hne
      apply h2
      rw [hb]
      simp only [Bool.true_and]
      exact bne_iff_ne.mpr hne

theorem startActionServe_finished (ext : External) (opts opts' : List ServerOption) (ret : CliErr)
    (h : startActionServe ext opts = ActionResult.finished opts' ret) :
    opts' = opts ∧ ext.newServerErr = none ∧
      (ret = CliErr.exit "All services are stopped." 0 ∧ ext.startErr = none ∨
        ∃ s, ext.startErr = some s ∧ ret = CliErr.exit ("Unable to start server. Error: " ++ s) 1) := by
  unfold startActionServe at h
  cases hn : ext.newServerErr with
  | some m => rw [hn] at h; exact absurd h (by simp)
  | none =>
    rw [hn] at h
    cases hs : ext.startErr with
    | some m =>
      rw [hs] at h
      injection h with h1 h2
      exact ⟨h1.symm, rfl, Or.inr ⟨m, rfl, h2.symm⟩⟩
    | none =>
      rw [hs] at h
      injection h with h1 h2
      exact ⟨h1.symm, rfl, Or.inl ⟨h2.symm, rfl⟩⟩

theorem startActionServe_earlyErr (ext : External) (opts : List ServerOption) (e : CliErr)
    (h : startActionServe ext opts = ActionResult.earlyErr e) :
    ∃ m, ext.newServerErr = some m ∧ e = CliErr.plain m := by
  unfold startActionServe at h
  cases hn : ext.newServerErr with
  | some m =>
    rw [hn] at h
    injection h with h1
    exact ⟨m, rfl, h1.symm⟩
  | none =>
    rw [hn] at h
    cases hs : ext.startErr with
    | some m => rw [hs] at h; exact absurd h (by simp)
    | none => rw [hs] at h; exact absurd h (by simp)

theorem startActionServe_ne_panicked (ext : External) (opts : List ServerOption) :
    startActionServe ext opts ≠ ActionResult.panicked := by
  intro h
  unfold startActionServe at h
  cases hn : ext.newServerErr with
  | some m => rw [hn] at h; exact ActionResult.noConfusion h
  | none =>
    rw [hn] at h
    cases hs : ext.startErr with
    | some m => rw [hs] at h; exact ActionResult.noConfusion h
    | none => rw [hs] at h; exact ActionResult.noConfusion h

theorem startActionAfterSA_finished (ext : External) (c : RawInput)
    (opts0 opts : List ServerOption) (ret : CliErr)
    (h : startActionAfterSA ext c opts0 = ActionResult.finished opts ret) :
    opts = opts0 ++ (if c.logFormat = "pretty" then [ServerOption.withLogger] else []) ∧
      (ret = CliErr.exit "All services are stopped." 0 ∧ ext.startErr = none ∨
        ∃ s, ext.startErr = some s ∧ ret = CliErr.exit ("Unable to start server. Error: " ++ s) 1) := by
  unfold startActionAfterSA at h
  by_cases hp : c.logFormat = "pretty"
  · rw [if_pos hp] at h
    cases hl : ext.loggerBuildErr with
    | some m => rw [hl] at h; exact absurd h (by simp)
    | none =>
      rw [hl] at h
      obtain ⟨h1, _, h3⟩ := startActionServe_finished ext _ _ _ h
      rw [if_pos hp]
      exact ⟨h1, h3⟩
  · rw [if_neg hp] at h
    obtain ⟨h1, _, h3⟩ := startActionServe_finished ext _ _ _ h
    rw [if_neg hp, List.append_nil]
    exact ⟨h1, h3⟩

theorem startActionAfterSA_earlyErr (ext : External) (c : RawInput)
    (opts0 : List ServerOption) (e : CliErr)
    (h : startActionAfterSA ext c opts0 = ActionResult.earlyErr e) :
    ∃ m, e = CliErr.plain m := by
  unfold startActionAfterSA at h
  by_cases hp : c.logFormat = "pretty"
  · rw [if_pos hp] at h
    cases hl : ext.loggerBuildErr with
    | some m =>
      rw [hl] at h
      injection h with h1
      exact ⟨m, h1.symm⟩
    | none =>
      rw [hl] at h
      obtain ⟨m, _, hm⟩ := startActionServe_earlyErr ext _ _ h
      exact ⟨m, hm⟩
  · rw [if_neg hp] at h
    obtain ⟨m, _, hm⟩ := startActionServe_earlyErr ext _ _ h
    exact ⟨m, hm⟩

theorem startActionAfterSA_ne_panicked (ext : External) (c : RawInput)
    (opts0 : List ServerOption) :
    startActionAfterSA ext c opts0 ≠ ActionResult.panicked := by
  intro h
  unfold startActionAfterSA at h
  by_cases hp : c.logFormat = "pretty"
  · rw [if_pos hp] at h
    cases hl : ext.loggerBuildErr with
    | some m => rw [hl] at h; exact ActionResult.noConfusion h
    | none => rw [hl] at h; exact startActionServe_ne_panicked ext _ h
  · rw [if_neg hp] at h
    exact startActionServe_ne_panicked ext _ h

theorem ephPart_eq (c : RawInput) :
    (if c.ephemeral then baseOpts c ++ [ServerOption.withPersistenceDisabled] else baseOpts c) =
      baseOpts c ++ (if c.ephemeral then [ServerOption.withPersistenceDisabled] else []) := by
  cases c.ephemeral <;> simp

theorem startActionWith_finished (parse : List String → List String → ParseResult)
    (ext : External) (c : RawInput) (opts : List ServerOption) (ret : CliErr)
    (h : startActionWith parse ext c = ActionResult.finished opts ret) :
    ∃ saPart : List ServerOption,
      opts = baseOpts c ++ (if c.ephemeral then [ServerOption.withPersistenceDisabled] else []) ++
        saPart ++ (if c.logFormat = "pretty" then [ServerOption.withLogger] else []) ∧
      ((c.saTypeSet && c.saKeySet) = false → saPart = []) ∧
      (∀ o ∈ saPart, o.isSearchAttrs = true) ∧
      (ret = CliErr.exit "All services are stopped." 0 ∧ ext.startErr = none ∨
        ∃ s, ext.startErr = some s ∧ ret = CliErr.exit ("Unable to start server. Error: " ++ s) 1) := by
  simp only [startActionWith] at h
  split at h
  · rename_i hsa
    split at h
    · exact absurd h (by simp)
    · exact absurd h (by simp)
    · rename_i sa hp
      obtain ⟨h1, h2⟩ := startActionAfterSA_finished ext c _ _ _ h
      refine ⟨[ServerOption.withSearchAttributes sa], ?_, ?_, ?_, h2⟩
      · rw [h1, ephPart_eq]
      · intro hfalse
        rw [hsa] at hfalse
        exact absurd hfalse (by simp)
      · intro o ho
        rw [List.mem_singleton] at ho
        subst ho
        rfl
  · rename_i hsa
    obtain ⟨h1, h2⟩ := startActionAfterSA_finished ext c _ _ _ h
    refine ⟨[], ?_, fun _ => rfl, fun o ho => absurd ho (List.not_mem_nil o), h2⟩
    rw [h1, ephPart_eq, List.append_nil]

theorem startActionWith_earlyErr (parse : List String → List String → ParseResult)
    (ext : External) (c : RawInput) (e : CliErr)
    (h : startActionWith parse ext c = ActionResult.earlyErr e) :
    ∃ m, e = CliErr.plain m := by
  simp only [startActionWith] at h
  split at h
  · split at h
    · exact absurd h (by simp)
    · rename_i msg hp
      injection h with h1
      exact ⟨msg, h1.symm⟩
    · exact startActionAfterSA_earlyErr ext c _ _ h
  · exact startActionAfterSA_earlyErr ext c _ _ h

theorem startActionWith_panicked (parse : List String → List String → ParseResult)
    (ext : External) (c : RawInput)
    (h : startActionWith parse ext c = ActionResult.panicked) :
    (c.saTypeSet && c.saKeySet) = true ∧ parse c.saKeys c.saTypes = ParseResult.fault := by
  simp only [startActionWith] at h
  split at h
  · rename_i hsa
    split at h
    · rename_i hp
      exact ⟨hsa, hp⟩
    · exact absurd h (by simp)
    · exact absurd h (startActionAfterSA_ne_panicked ext c _)
  · exact absurd h (startActionAfterSA_ne_panicked ext c _)

/-! Claim theorems. -/

/-- C2: for equal-length key and type lists in which every type token is a
recognized IndexedValueType enum name, parseSearchAttributes succeeds with a
mapping that sends each key to the enum value of the type token at its last
occurrence (last write wins), and whose domain is exactly the set of listed
keys. -/
theorem parseSearchAttributes_lastWriteWins (keys types : List String)
    (hlen : keys.length = types.length)
    (hrec : ∀ t ∈ types, (IndexedValueType_value t).isSome = true) :
    ∃ m, parseSearchAttributes keys types = ParseResult.ok m ∧
      (∀ k, m k = (lookupLast (keys.zip types) k).bind IndexedValueType_value) ∧
      (∀ k, (m k).isSome = true ↔ k ∈ keys) := by
  have hle : keys.length ≤ types.length := le_of_eq hlen
  have hloop := parseLoop_eq_parsePairs types keys 0 (fun _ => none) (by omega)
  rw [List.drop_zero] at hloop
  obtain ⟨m, hm, hchar⟩ := parsePairs_ok (keys.zip types) (fun _ => none)
    (fun p hp => hrec p.2 (List.of_mem_zip hp).2)
  have hbind : ∀ k, m k = (lookupLast (keys.zip types) k).bind IndexedValueType_value := by
    intro k
    rw [hchar k]
    cases hl : lookupLast (keys.zip types) k with
    | none => rfl
    | some tok => rfl
  refine ⟨m, ?_, hbind, ?_⟩
  · rw [parseSearchAttributes, hloop]
    exact hm
  · intro k
    rw [hbind k]
    constructor
    · intro hk
      cases hl : lookupLast (keys.zip types) k with
      | none => rw [hl] at hk; simp at hk
      | some tok =>
        unfold lookupLast at hl
        cases hq : (keys.zip types).reverse.find? (fun p => p.1 == k) with
        | none => rw [hq] at hl; simp at hl
        | some q =>
          have hqmem : q ∈ (keys.zip types).reverse := List.mem_of_find?_eq_some hq
          have hpred := List.find?_some hq
          have hq1 : q.1 = k := beq_iff_eq.mp hpred
          have hmem : q.1 ∈ keys := (List.of_mem_zip (List.mem_reverse.mp hqmem)).1
          rw [hq1] at hmem
          exact hmem
    · intro hk
      have hmap : (keys.zip types).map Prod.fst = keys := List.map_fst_zip _ _ hle
      rw [← hmap] at hk
      obtain ⟨q, hqmem, hq1⟩ := List.mem_map.mp hk
      have hq1b : (q.1 == k) = true := beq_iff_eq.mpr hq1
      have hfound : ((keys.zip types).reverse.find? (fun p => p.1 == k)).isSome = true := by
        rw [List.find?_isSome]
        exact ⟨q, List.mem_reverse.mpr hqmem, hq1b⟩
      obtain ⟨q2, hq2⟩ := Option.isSome_iff_exists.mp hfound
      have hq2mem : q2 ∈ keys.zip types := List.mem_reverse.mp (List.mem_of_find?_eq_some hq2)
      have hq2some : (IndexedValueType_value q2.2).isSome = true :=
        hrec q2.2 (List.of_mem_zip hq2mem).2
      unfold lookupLast
      rw [hq2]
      simpa using hq2some

/-- C2 witness: a concrete equal-length pair with a duplicate key. -/
theorem parseSearchAttributes_lastWriteWins_witness :
    (["A", "B", "A"] : List String).length = (["Keyword", "Int", "Bool"] : List String).length ∧
    (∀ t ∈ (["Keyword", "Int", "Bool"] : List String), (IndexedValueType_value t).isSome = true) ∧
    (∃ m, parseSearchAttributes ["A", "B", "A"] ["Keyword", "Int", "Bool"] = ParseResult.ok m ∧
      (∀ k, m k = (lookupLast ((["A", "B", "A"] : List String).zip ["Keyword", "Int", "Bool"]) k).bind IndexedValueType_value) ∧
      (∀ k, (m k).isSome = true ↔ k ∈ (["A", "B", "A"] : List String))) :=
  ⟨rfl, by decide, parseSearchAttributes_lastWriteWins ["A", "B", "A"] ["Keyword", "Int", "Bool"] rfl (by decide)⟩

/-- C3 counterexample: an input pair containing an unrecognized type token on
which parseSearchAttributes nevertheless succeeds, because the bad token sits
beyond the length of the key list and the loop ranges over the keys. -/
theorem parseSearchAttributes_unrecognized_counterexample :
    IndexedValueType_value "NoSuchType" = none ∧
    (parseSearchAttributes ["A"] ["Keyword", "NoSuchType"]).isOk = true :=
  ⟨rfl, rfl⟩

/-- C3 (amended to equal-length pairs): when the lists have equal length and
some type token is unrecognized, parseSearchAttributes fails at the first such
token, with a message identifying it, and returns no mapping. -/
theorem parseSearchAttributes_firstBad (keys types : List String) (b : String)
    (hlen : keys.length = types.length)
    (hfind : types.find? (fun t => (IndexedValueType_value t).isNone) = some b) :
    parseSearchAttributes keys types =
      ParseResult.err ("the type: " ++ b ++ " is not a valid type for a search attribute") ∧
    ∀ m, parseSearchAttributes keys types ≠ ParseResult.ok m := by
  have hle2 : types.length ≤ keys.length := le_of_eq hlen.symm
  have hloop := parseLoop_eq_parsePairs types keys 0 (fun _ => none) (by omega)
  rw [List.drop_zero] at hloop
  have hsnd : (keys.zip types).map Prod.snd = types := List.map_snd_zip _ _ hle2
  have herr := parsePairs_err (keys.zip types) (fun _ => none) b (by rw [hsnd]; exact hfind)
  constructor
  · rw [parseSearchAttributes, hloop]
    exact herr
  · intro m hm
    rw [parseSearchAttributes, hloop, herr] at hm
    exact ParseResult.noConfusion hm

/-- C3 witness: a concrete equal-length pair whose second type token is
unrecognized. -/
theorem parseSearchAttributes_firstBad_witness :
    (["A", "B"] : List String).length = (["Keyword", "NoSuchType"] : List String).length ∧
    (["Keyword", "NoSuchType"] : List String).find? (fun t => (IndexedValueType_value t).isNone) = some "NoSuchType" ∧
    (parseSearchAttributes ["A", "B"] ["Keyword", "NoSuchType"] =
       ParseResult.err ("the type: " ++ "NoSuchType" ++ " is not a valid type for a search attribute") ∧
     ∀ m, parseSearchAttributes ["A", "B"] ["Keyword", "NoSuchType"] ≠ ParseResult.ok m) :=
  ⟨rfl, by decide,
   parseSearchAttributes_firstBad ["A", "B"] ["Keyword", "NoSuchType"] "NoSuchType" rfl (by decide)⟩

/-- C9: whenever the type list is at least as long as the key list,
parseSearchAttributes never faults on an index access; in particular, on any
input that passes validation the whole run never reaches the panicked state. -/
theorem parse_inbounds_no_fault (keys types : List String) (c : RawInput) (ext : External)
    (hle : keys.length ≤ types.length) (hv : startBefore c = none) :
    parseSearchAttributes keys types ≠ ParseResult.fault ∧
    runStart ext c ≠ RunResult.action ActionResult.panicked := by
  constructor
  · rw [parseSearchAttributes, parseLoop_eq_parsePairs types keys 0 _ (by omega), List.drop_zero]
    exact parsePairs_ne_fault _ _
  · intro hcon
    rw [runStart, runStartWith, hv] at hcon
    injection hcon with hcon
    obtain ⟨hboth, hfault⟩ := startActionWith_panicked parseSearchAttributes ext c hcon
    have hlens := searchAttributesValid_none_lengths c (startBefore_none_sa c hv) hboth
    have hok : parseSearchAttributes c.saKeys c.saTypes ≠ ParseResult.fault := by
      rw [parseSearchAttributes, parseLoop_eq_parsePairs c.saTypes c.saKeys 0 _ (by omega),
        List.drop_zero]
      exact parsePairs_ne_fault _ _
    exact hok hfault

/-- C9 witness: a concrete in-bounds pair and a concrete validated input. -/
theorem parse_inbounds_no_fault_witness :
    (["A"] : List String).length ≤ (["Keyword"] : List String).length ∧
    startBefore (RawInput.mk [] false false false "db" 7233 "json" [] false [] false []) = none ∧
    (parseSearchAttributes ["A"] ["Keyword"] ≠ ParseResult.fault ∧
     runStart (External.mk none none none)
       (RawInput.mk [] false false false "db" 7233 "json" [] false [] false []) ≠
         RunResult.action ActionResult.panicked) :=
  ⟨by decide, rfl,
   parse_inbounds_no_fault ["A"] ["Keyword"]
     (RawInput.mk [] false false false "db" 7233 "json" [] false [] false [])
     (External.mk none none none) (by decide) rfl⟩

/-- C10: the Before hook reports exactly the first violated check in the fixed
order positional arguments, ephemeral/filename conflict, search-attribute
pairing, search-attribute list length, log format; firstViolation is that
ordered specification written out flat. -/
theorem startBefore_eq_firstViolation (c : RawInput) :
    startBefore c = firstViolation c := by
  unfold startBefore firstViolation searchAttributesValid
  by_cases h1 : c.args.length > 0
  · rw [if_pos h1, if_pos h1]
  · rw [if_neg h1, if_neg h1]
    by_cases h2 : (c.ephemeralSet && c.filenameSet) = true
    · rw [if_pos h2, if_pos h2]
    · rw [if_neg h2, if_neg h2]
      by_cases h3 : ((c.saTypeSet || c.saKeySet) && !(c.saTypeSet && c.saKeySet)) = true
      · rw [if_pos h3, if_pos h3]
      · rw [if_neg h3, if_neg h3]
        by_cases h4 : (c.saTypeSet && c.saKeySet && (c.saTypes.length != c.saKeys.length)) = true
        · rw [if_pos h4, if_pos h4]
        · rw [if_neg h4, if_neg h4]

/-- C1: when both the ephemeral flag and the database-filename flag are
explicitly set, validation fails regardless of the values those flags carry;
when the input reaches that check (no positional arguments) the failure is the
exact message naming both flag names, and the Action (parsing and composition)
is never entered: the run outcome does not depend on the parse function at
all. -/
theorem ephemeral_filename_conflict (c : RawInput)
    (hE : c.ephemeralSet = true) (hF : c.filenameSet = true) :
    startBefore c ≠ none ∧
    (c.args = [] →
      startBefore c = some (CliErr.exit ("ERROR: only one of \"" ++ ephemeralFlag ++ "\" or \"" ++ dbPathFlag ++ "\" flags may be passed at a time") 1)) ∧
    (∀ parse1 parse2 ext, runStartWith parse1 ext c = runStartWith parse2 ext c ∧
      ∃ e, runStartWith parse1 ext c = RunResult.beforeErr e) := by
  have hsome : ∃ e, startBefore c = some e := by
    unfold startBefore
    by_cases ha : c.args.length > 0
    · rw [if_pos ha]
      exact ⟨_, rfl⟩
    · rw [if_neg ha, if_pos (by rw [hE, hF]; rfl)]
      exact ⟨_, rfl⟩
  obtain ⟨e, he⟩ := hsome
  refine ⟨by rw [he]; exact Option.some_ne_none e, ?_, ?_⟩
  · intro hargs
    unfold startBefore
    rw [if_neg (by rw [hargs]; simp), if_pos (by rw [hE, hF]; rfl)]
  · intro parse1 parse2 ext
    refine ⟨?_, e, runStartWith_of_before_some c e he parse1 ext⟩
    rw [runStartWith_of_before_some c e he parse1 ext,
      runStartWith_of_before_some c e he parse2 ext]

/-- C1 witness: both flags set on an otherwise clean input. -/
theorem ephemeral_filename_conflict_witness :
    startBefore (RawInput.mk [] true true true "foo.db" 7233 "json" [] false [] false []) ≠ none ∧
    startBefore (RawInput.mk [] true true true "foo.db" 7233 "json" [] false [] false []) =
      some (CliErr.exit ("ERROR: only one of \"" ++ ephemeralFlag ++ "\" or \"" ++ dbPathFlag ++ "\" flags may be passed at a time") 1) :=
  ⟨(ephemeral_filename_conflict (RawInput.mk [] true true true "foo.db" 7233 "json" [] false [] false []) rfl rfl).1,
   (ephemeral_filename_conflict (RawInput.mk [] true true true "foo.db" 7233 "json" [] false [] false []) rfl rfl).2.1 rfl⟩

/-- C4: setting exactly one of the search-attribute key/type list flags fails
validation with the pairing message; with both unset the search-attribute
checks pass and the composed option list carries no search-attribute
directive. -/
theorem searchAttr_pairing (c : RawInput) :
    (c.saKeySet ≠ c.saTypeSet →
      searchAttributesValid c =
        some (CliErr.exit ("ERROR: both \"" ++ searchAttrType ++ "\" and \"" ++ searchAttrKey ++ "\" must be set at the same time, or omitted completely") 1) ∧
      startBefore c ≠ none) ∧
    (c.saKeySet = false → c.saTypeSet = false →
      searchAttributesValid c = none ∧
      ∀ ext opts ret, startAction ext c = ActionResult.finished opts ret →
        opts.all (fun o => !o.isSearchAttrs) = true) := by
  constructor
  · intro hne
    have hcond : ((c.saTypeSet || c.saKeySet) && !(c.saTypeSet && c.saKeySet)) = true := by
      cases hK : c.saKeySet <;> cases hT : c.saTypeSet <;> simp_all
    have hsav : searchAttributesValid c =
        some (CliErr.exit ("ERROR: both \"" ++ searchAttrType ++ "\" and \"" ++ searchAttrKey ++ "\" must be set at the same time, or omitted completely") 1) := by
      unfold searchAttributesValid
      rw [if_pos hcond]
    refine ⟨hsav, ?_⟩
    intro hnone
    rw [startBefore_none_sa c hnone] at hsav
    exact Option.noConfusion hsav
  · intro hK hT
    have hsav : searchAttributesValid c = none := by
      unfold searchAttributesValid
      rw [if_neg (by rw [hK, hT]; simp), if_neg (by rw [hK, hT]; simp)]
    refine ⟨hsav, ?_⟩
    intro ext opts ret hfin
    unfold startAction at hfin
    obtain ⟨saPart, hopts, hempty, _, _⟩ :=
      startActionWith_finished parseSearchAttributes ext c opts ret hfin
    have hsp : saPart = [] := hempty (by simp [hK, hT])
    subst hsp
    rw [hopts]
    simp only [List.append_nil, List.all_append, Bool.and_eq_true]
    refine ⟨⟨?_, ?_⟩, ?_⟩
    · simp [baseOpts, ServerOption.isSearchAttrs]
    · split_ifs <;> simp [ServerOption.isSearchAttrs]
    · split_ifs <;> simp [ServerOption.isSearchAttrs]

/-- C4 witness: one input with only the key list set, one with neither set. -/
theorem searchAttr_pairing_witness :
    (searchAttributesValid (RawInput.mk [] false false false "db" 7233 "json" [] true ["A"] false []) =
        some (CliErr.exit ("ERROR: both \"" ++ searchAttrType ++ "\" and \"" ++ searchAttrKey ++ "\" must be set at the same time, or omitted completely") 1) ∧
      startBefore (RawInput.mk [] false false false "db" 7233 "json" [] true ["A"] false []) ≠ none) ∧
    (searchAttributesValid (RawInput.mk [] false false false "db" 7233 "json" [] false [] false []) = none ∧
      (baseOpts (RawInput.mk [] false false false "db" 7233 "json" [] false [] false [])).all
        (fun o => !o.isSearchAttrs) = true) :=
  ⟨(searchAttr_pairing (RawInput.mk [] false false false "db" 7233 "json" [] true ["A"] false [])).1 (by decide),
   ⟨((searchAttr_pairing (RawInput.mk [] false false false "db" 7233 "json" [] false [] false [])).2 rfl rfl).1,
    ((searchAttr_pairing (RawInput.mk [] false false false "db" 7233 "json" [] false [] false [])).2 rfl rfl).2
      (External.mk none none none)
      (baseOpts (RawInput.mk [] false false false "db" 7233 "json" [] false [] false []))
      (CliErr.exit "All services are stopped." 0) rfl⟩⟩

/-- C5: a resolved log-format value outside the set of json and pretty fails
validation, with the exact bad-value message once the earlier checks pass;
json and pretty both pass the log-format check; and the composed option list
contains the logger-override directive exactly when the value is pretty. -/
theorem logFormat_gate (c : RawInput) (ext : External) :
    (c.logFormat ≠ "json" → c.logFormat ≠ "pretty" →
      startBefore c ≠ none ∧
      (c.args = [] → (c.ephemeralSet && c.filenameSet) = false → searchAttributesValid c = none →
        startBefore c = some (CliErr.exit ("bad value \"" ++ c.logFormat ++ "\" passed for flag \"" ++ logFormatFlag ++ "\"") 1))) ∧
    ((c.logFormat = "json" ∨ c.logFormat = "pretty") →
      c.args = [] → (c.ephemeralSet && c.filenameSet) = false → searchAttributesValid c = none →
      startBefore c = none) ∧
    (∀ opts ret, startAction ext c = ActionResult.finished opts ret →
      (opts.any (fun o => o.isLogger) = true ↔ c.logFormat = "pretty")) := by
  refine ⟨?_, ?_, ?_⟩
  · intro hj hp
    have hlog : ¬(c.logFormat = "json" ∨ c.logFormat = "pretty") := by
      rintro (h | h)
      · exact hj h
      · exact hp h
    constructor
    · intro hnone
      exact hlog (startBefore_none_logFormat c hnone)
    · intro hargs hconf hsav
      unfold startBefore
      rw [if_neg (by rw [hargs]; simp), if_neg (by rw [hconf]; simp)]
      simp only [hsav]
      rw [if_neg hlog]
  · intro hlog hargs hconf hsav
    unfold startBefore
    rw [if_neg (by rw [hargs]; simp), if_neg (by rw [hconf]; simp)]
    simp only [hsav]
    rw [if_pos hlog]
  · intro opts ret hfin
    unfold startAction at hfin
    obtain ⟨saPart, hopts, _, hsa, _⟩ :=
      startActionWith_finished parseSearchAttributes ext c opts ret hfin
    have hsaL : saPart.any (fun o => o.isLogger) = false := by
      rw [List.any_eq_false]
      intro o ho
      have hso := hsa o ho
      cases o <;> simp_all [ServerOption.isSearchAttrs, ServerOption.isLogger]
    rw [hopts]
    simp only [List.any_append, Bool.or_eq_true]
    constructor
    · rintro (((hb | he) | hs) | hl)
      · exact absurd hb (by simp [baseOpts, ServerOption.isLogger])
      · by_cases hE : c.ephemeral = true
        · rw [if_pos hE] at he
          exact absurd he (by simp [ServerOption.isLogger])
        · rw [if_neg hE] at he
          exact absurd he (by simp)
      · rw [hsaL] at hs
        exact Bool.noConfusion hs
      · by_cases hP : c.logFormat = "pretty"
        · exact hP
        · rw [if_neg hP] at hl
          exact absurd hl (by simp)
    · intro hP
      refine Or.inr ?_
      rw [if_pos hP]
      simp [ServerOption.isLogger]

/-- C5 witness: a bad value, and a pretty input whose composed options carry
the logger directive. -/
theorem logFormat_gate_witness :
    startBefore (RawInput.mk [] false false false "db" 7233 "xml" [] false [] false []) ≠ none ∧
    startBefore (RawInput.mk [] false false false "db" 7233 "xml" [] false [] false []) =
      some (CliErr.exit ("bad value \"" ++ "xml" ++ "\" passed for flag \"" ++ logFormatFlag ++ "\"") 1) ∧
    startBefore (RawInput.mk [] false false false "db" 7233 "pretty" [] false [] false []) = none ∧
    ((baseOpts (RawInput.mk [] false false false "db" 7233 "pretty" [] false [] false []) ++
        [ServerOption.withLogger]).any (fun o => o.isLogger) = true ↔
      (RawInput.mk [] false false false "db" 7233 "pretty" [] false [] false []).logFormat = "pretty") :=
  ⟨((logFormat_gate (RawInput.mk [] false false false "db" 7233 "xml" [] false [] false [])
      (External.mk none none none)).1 (by decide) (by decide)).1,
   ((logFormat_gate (RawInput.mk [] false false false "db" 7233 "xml" [] false [] false [])
      (External.mk none none none)).1 (by decide) (by decide)).2 rfl rfl rfl,
   (logFormat_gate (RawInput.mk [] false false false "db" 7233 "pretty" [] false [] false [])
      (External.mk none none none)).2.1 (Or.inr rfl) rfl rfl rfl,
   (logFormat_gate (RawInput.mk [] false false false "db" 7233 "pretty" [] false [] false [])
      (External.mk none none none)).2.2
     (baseOpts (RawInput.mk [] false false false "db" 7233 "pretty" [] false [] false []) ++
       [ServerOption.withLogger])
     (CliErr.exit "All services are stopped." 0) rfl⟩

/-- C6: every composed option list opens with the frontend-port,
database-file-path, namespace-list and upstream-interrupt directives in that
order (the database path is present even in ephemeral mode), and in ephemeral
mode the persistence-disabled directive sits directly after those four. -/
theorem composed_options_shape (c : RawInput) (ext : External)
    (_hv : startBefore c = none) :
    ∀ opts ret, startAction ext c = ActionResult.finished opts ret →
      ∃ rest, opts = baseOpts c ++ (if c.ephemeral then [ServerOption.withPersistenceDisabled] else []) ++ rest ∧
        opts.take 4 = [ServerOption.withFrontendPort c.port, ServerOption.withDatabaseFilePath c.filename,
          ServerOption.withNamespaces c.namespaces, ServerOption.withUpstreamOptions] ∧
        (c.ephemeral = true → opts[4]? = some ServerOption.withPersistenceDisabled) := by
  intro opts ret hfin
  unfold startAction at hfin
  obtain ⟨saPart, hopts, _, _, _⟩ :=
    startActionWith_finished parseSearchAttributes ext c opts ret hfin
  refine ⟨saPart ++ (if c.logFormat = "pretty" then [ServerOption.withLogger] else []), ?_, ?_, ?_⟩
  · rw [hopts, List.append_assoc (baseOpts c ++ _)]
  · rw [hopts]
    simp only [baseOpts, List.cons_append, List.nil_append]
    rfl
  · intro hE
    rw [hopts]
    simp [hE, baseOpts]

/-- C6 witness: a validated ephemeral input; the composed options are the four
base directives followed by the persistence-disabled directive. -/
theorem composed_options_shape_witness :
    startBefore (RawInput.mk [] true true false "db" 7233 "json" [] false [] false []) = none ∧
    ∃ rest,
      baseOpts (RawInput.mk [] true true false "db" 7233 "json" [] false [] false []) ++
          [ServerOption.withPersistenceDisabled] =
        baseOpts (RawInput.mk [] true true false "db" 7233 "json" [] false [] false []) ++
          (if (RawInput.mk [] true true false "db" 7233 "json" [] false [] false []).ephemeral then
            [ServerOption.withPersistenceDisabled] else []) ++ rest ∧
      (baseOpts (RawInput.mk [] true true false "db" 7233 "json" [] false [] false []) ++
          [ServerOption.withPersistenceDisabled]).take 4 =
        [ServerOption.withFrontendPort (RawInput.mk [] true true false "db" 7233 "json" [] false [] false []).port,
         ServerOption.withDatabaseFilePath (RawInput.mk [] true true false "db" 7233 "json" [] false [] false []).filename,
         ServerOption.withNamespaces (RawInput.mk [] true true false "db" 7233 "json" [] false [] false []).namespaces,
         ServerOption.withUpstreamOptions] ∧
      ((RawInput.mk [] true true false "db" 7233 "json" [] false [] false []).ephemeral = true →
        (baseOpts (RawInput.mk [] true true false "db" 7233 "json" [] false [] false []) ++
          [ServerOption.withPersistenceDisabled])[4]? = some ServerOption.withPersistenceDisabled) :=
  ⟨rfl,
   composed_options_shape (RawInput.mk [] true true false "db" 7233 "json" [] false [] false [])
     (External.mk none none none) rfl
     (baseOpts (RawInput.mk [] true true false "db" 7233 "json" [] false [] false []) ++
       [ServerOption.withPersistenceDisabled])
     (CliErr.exit "All services are stopped." 0) rfl⟩

/-- C7: when both search-attribute list flags are set with unequal lengths,
validation fails with the length message, and on any input that fails
validation the parse function is never invoked: the run outcome is the Before
failure whatever parse function is plugged in. -/
theorem saLength_mismatch_before_parse (c : RawInput)
    (hK : c.saKeySet = true) (hT : c.saTypeSet = true)
    (hne : c.saKeys.length ≠ c.saTypes.length) :
    searchAttributesValid c =
      some (CliErr.exit ("ERROR: number of search attributes (type/key) in \"" ++ searchAttrType ++ "\" and \"" ++ searchAttrKey ++ "\" must be the same") 1) ∧
    startBefore c ≠ none ∧
    ∀ parse1 parse2 ext, runStartWith parse1 ext c = runStartWith parse2 ext c ∧
      ∃ e, runStartWith parse1 ext c = RunResult.beforeErr e := by
  have hcond1 : ((c.saTypeSet || c.saKeySet) && !(c.saTypeSet && c.saKeySet)) = false := by
    rw [hK, hT]
    rfl
  have hcond2 : (c.saTypeSet && c.saKeySet && (c.saTypes.length != c.saKeys.length)) = true := by
    rw [hK, hT]
    simp only [Bool.and_self, Bool.true_and]
    exact bne_iff_ne.mpr (Ne.symm hne)
  have hsav : searchAttributesValid c =
      some (CliErr.exit ("ERROR: number of search attributes (type/key) in \"" ++ searchAttrType ++ "\" and \"" ++ searchAttrKey ++ "\" must be the same") 1) := by
    unfold searchAttributesValid
    rw [if_neg (by rw [hcond1]; simp), if_pos hcond2]
  have hnn : startBefore c ≠ none := by
    intro hnone
    rw [startBefore_none_sa c hnone] at hsav
    exact Option.noConfusion hsav
  obtain ⟨e, he⟩ := Option.ne_none_iff_exists'.mp hnn
  refine ⟨hsav, hnn, ?_⟩
  intro parse1 parse2 ext
  refine ⟨?_, e, runStartWith_of_before_some c e he parse1 ext⟩
  rw [runStartWith_of_before_some c e he parse1 ext,
    runStartWith_of_before_some c e he parse2 ext]

/-- C7 witness: two keys against one type; the run outcome is identical for
the real parse function and for one that always faults. -/
theorem saLength_mismatch_before_parse_witness :
    searchAttributesValid (RawInput.mk [] false false false "db" 7233 "json" [] true ["A", "B"] true ["Keyword"]) =
      some (CliErr.exit ("ERROR: number of search attributes (type/key) in \"" ++ searchAttrType ++ "\" and \"" ++ searchAttrKey ++ "\" must be the same") 1) ∧
    startBefore (RawInput.mk [] false false false "db" 7233 "json" [] true ["A", "B"] true ["Keyword"]) ≠ none ∧
    (runStartWith parseSearchAttributes (External.mk none none none)
        (RawInput.mk [] false false false "db" 7233 "json" [] true ["A", "B"] true ["Keyword"]) =
      runStartWith (fun _ _ => ParseResult.fault) (External.mk none none none)
        (RawInput.mk [] false false false "db" 7233 "json" [] true ["A", "B"] true ["Keyword"]) ∧
      ∃ e, runStartWith parseSearchAttributes (External.mk none none none)
        (RawInput.mk [] false false false "db" 7233 "json" [] true ["A", "B"] true ["Keyword"]) =
          RunResult.beforeErr e) :=
  ⟨(saLength_mismatch_before_parse
      (RawInput.mk [] false false false "db" 7233 "json" [] true ["A", "B"] true ["Keyword"])
      rfl rfl (by decide)).1,
   (saLength_mismatch_before_parse
      (RawInput.mk [] false false false "db" 7233 "json" [] true ["A", "B"] true ["Keyword"])
      rfl rfl (by decide)).2.1,
   (saLength_mismatch_before_parse
      (RawInput.mk [] false false false "db" 7233 "json" [] true ["A", "B"] true ["Keyword"])
      rfl rfl (by decide)).2.2 parseSearchAttributes (fun _ _ => ParseResult.fault)
     (External.mk none none none)⟩

/-- C8: the process exit status is 0 exactly on clean shutdown (with the
informational stop message), every other defined outcome exits with status 1,
and a validation failure always maps to status 1 with the validation
message. -/
theorem exit_code_contract (ext : External) (c : RawInput) :
    (∀ n msg, exitOutcome (runStart ext c) = some (n, msg) → n = 0 ∨ n = 1) ∧
    (∀ msg, exitOutcome (runStart ext c) = some (0, msg) ↔
      (msg = "All services are stopped." ∧
        ∃ opts, runStart ext c =
          RunResult.action (ActionResult.finished opts (CliErr.exit "All services are stopped." 0)))) ∧
    (∀ e, startBefore c = some e → exitOutcome (runStart ext c) = some (1, e.message)) := by
  cases hb : startBefore c with
  | some e =>
    obtain ⟨msg0, hsh⟩ := startBefore_some_exit1 c e hb
    have hr : runStart ext c = RunResult.beforeErr e := by
      rw [runStart, runStartWith, hb]
    refine ⟨?_, ?_, ?_⟩
    · intro n m h
      rw [hr] at h
      simp only [exitOutcome, hsh, CliErr.code, CliErr.message, Option.some.injEq,
        Prod.mk.injEq] at h
      exact Or.inr h.1.symm
    · intro m
      constructor
      · intro h
        rw [hr] at h
        simp only [exitOutcome, hsh, CliErr.code, CliErr.message, Option.some.injEq,
          Prod.mk.injEq] at h
        exact absurd h.1 one_ne_zero
      · rintro ⟨_, opts, habs⟩
        rw [hr] at habs
        exact RunResult.noConfusion habs
    · intro e2 he2
      obtain rfl : e = e2 := Option.some_inj.mp he2
      rw [hr, hsh]
      rfl
  | none =>
    have hr : runStart ext c = RunResult.action (startActionWith parseSearchAttributes ext c) := by
      rw [runStart, runStartWith, hb]
    cases hact : startActionWith parseSearchAttributes ext c with
    | panicked =>
      rw [hact] at hr
      refine ⟨?_, ?_, ?_⟩
      · intro n m h
        rw [hr] at h
        exact absurd h (by simp [exitOutcome])
      · intro m
        constructor
        · intro h
          rw [hr] at h
          exact absurd h (by simp [exitOutcome])
        · rintro ⟨_, opts, habs⟩
          rw [hr] at habs
          injection habs with habs
          exact ActionResult.noConfusion habs
      · intro e2 he2
        exact Option.noConfusion he2
    | earlyErr e =>
      obtain ⟨m0, rfl⟩ := startActionWith_earlyErr parseSearchAttributes ext c e hact
      rw [hact] at hr
      refine ⟨?_, ?_, ?_⟩
      · intro n m h
        rw [hr] at h
        simp only [exitOutcome, CliErr.code, CliErr.message, Option.some.injEq,
          Prod.mk.injEq] at h
        exact Or.inr h.1.symm
      · intro m
        constructor
        · intro h
          rw [hr] at h
          simp only [exitOutcome, CliErr.code, CliErr.message, Option.some.injEq,
            Prod.mk.injEq] at h
          exact absurd h.1 one_ne_zero
        · rintro ⟨_, opts, habs⟩
          rw [hr] at habs
          injection habs with habs
          exact ActionResult.noConfusion habs
      · intro e2 he2
        exact Option.noConfusion he2
    | finished opts ret =>
      obtain ⟨saPart, _, _, _, hret⟩ :=
        startActionWith_finished parseSearchAttributes ext c opts ret hact
      rw [hact] at hr
      rcases hret with ⟨rfl, -⟩ | ⟨s, hs, rfl⟩
      · refine ⟨?_, ?_, ?_⟩
        · intro n m h
          rw [hr] at h
          simp only [exitOutcome, CliErr.code, CliErr.message, Option.some.injEq,
            Prod.mk.injEq] at h
          exact Or.inl h.1.symm
        · intro m
          constructor
          · intro h
            rw [hr] at h
            simp only [exitOutcome, CliErr.code, CliErr.message, Option.some.injEq,
              Prod.mk.injEq] at h
            exact ⟨h.2.symm, opts, hr⟩
          · rintro ⟨rfl, opts2, habs⟩
            rw [hr]
            rfl
        · intro e2 he2
          exact Option.noConfusion he2
      · refine ⟨?_, ?_, ?_⟩
        · intro n m h
          rw [hr] at h
          simp only [exitOutcome, CliErr.code, CliErr.message, Option.some.injEq,
            Prod.mk.injEq] at h
          exact Or.inr h.1.symm
        · intro m
          constructor
          · intro h
            rw [hr] at h
            simp only [exitOutcome, CliErr.code, CliErr.message, Option.some.injEq,
              Prod.mk.injEq] at h
            exact absurd h.1 one_ne_zero
          · rintro ⟨rfl, opts2, habs⟩
            rw [hr] at habs
            injection habs with habs
            injection habs with _ habs
            exact absurd (congrArg CliErr.code habs.symm) (by simp [CliErr.code])
        · intro e2 he2
          exact Option.noConfusion he2

/-- C8 witness: a clean run exits 0 with the stop message; a validation
failure exits 1 with its message. -/
theorem exit_code_contract_witness :
    exitOutcome (runStart (External.mk none none none)
        (RawInput.mk [] false false false "db" 7233 "json" [] false [] false [])) =
      some (0, "All services are stopped.") ∧
    exitOutcome (runStart (External.mk none none none)
        (RawInput.mk ["extra"] false false false "db" 7233 "json" [] false [] false [])) =
      some (1, "ERROR: start command doesn't support arguments.") :=
  ⟨((exit_code_contract (External.mk none none none)
       (RawInput.mk [] false false false "db" 7233 "json" [] false [] false [])).2.1
      "All services are stopped.").mpr
     ⟨rfl, baseOpts (RawInput.mk [] false false false "db" 7233 "json" [] false [] false []), rfl⟩,
   (exit_code_contract (External.mk none none none)
       (RawInput.mk ["extra"] false false false "db" 7233 "json" [] false [] false [])).2.2
     (CliErr.exit "ERROR: start command doesn't support arguments." 1) rfl⟩

end Temporalite
